import Mathlib

/-!
Verification development for the Connection & Messaging Client of the
Class_Agent_React repository (`src/components/ChatInterface.tsx`, class
`WebSocketService`, hook `useWebSocket`, and the UI message dispatcher
`handleMessage`).

The TypeScript service is embedded as an executable state machine:
the mutable fields of `WebSocketService` become the fields of the
structure `WS`, each method becomes a Lean function `WS → WS`, and the
browser event callbacks (`onopen`, `onclose`, `onerror`, timer firing)
become events of a step function.  Ghost fields (`sent`,
`timersScheduled`, `timerConnects`, `attemptsStarted`, `notified`)
record the externally observable actions (frames transmitted, reconnect
timers scheduled, timer callbacks run, sockets constructed, status
notifications delivered); they are written only where the corresponding
TypeScript line performs the action.
-/

/-- ReadyState of a browser WebSocket object (`WebSocket.CONNECTING`,
`WebSocket.OPEN`, `WebSocket.CLOSING`, `WebSocket.CLOSED`). -/
inductive ReadyState where
  | CONNECTING
  | OPEN
  | CLOSING
  | CLOSED
  deriving DecidableEq, Repr

/-- Connection status values published to status listeners
(`'connected' | 'disconnected'`). -/
inductive ConnStatus where
  | connected
  | disconnected
  deriving DecidableEq, Repr

/-- Source constant `maxReconnectAttempts = 5`. -/
def maxReconnectAttempts : Nat := 5

/-- Source constant `reconnectTimeout = 3000` (milliseconds of delay before a
scheduled reconnect fires; the delay length plays no role in the ordering
properties proved here). -/
def reconnectTimeout : Nat := 3000

/-- State of one `WebSocketService` instance.  The first six fields are the
mutable instance fields of the TypeScript class (`ws` is abstracted to the
readyState of the current socket, `none` when `this.ws === null`; the
status-callback set is represented by the list of registration tokens, with
`nextCallbackId` the fresh-token counter).  The remaining fields are ghost
observation logs. -/
@[ext]
structure WS where
  ws : Option ReadyState
  reconnectAttempts : Nat
  messageQueue : List String
  isConnecting : Bool
  statusCallbacks : List Nat
  nextCallbackId : Nat
  sent : List String
  pendingTimers : Nat
  timersScheduled : Nat
  timerConnects : Nat
  attemptsStarted : Nat
  notified : List (Nat × ConnStatus)
  deriving DecidableEq, Repr

/-- Field values before the constructor body runs. -/
def initWS : WS :=
  { ws := none
    reconnectAttempts := 0
    messageQueue := []
    isConnecting := false
    statusCallbacks := []
    nextCallbackId := 0
    sent := []
    pendingTimers := 0
    timersScheduled := 0
    timerConnects := 0
    attemptsStarted := 0
    notified := [] }

/-- Method `connect()`: a no-op while `isConnecting` is set (re-entrancy
guard); otherwise sets the guard, discards any existing socket and constructs
a fresh one (readyState `CONNECTING`).  `attemptsStarted` counts the
`new WebSocket(...)` constructions. -/
def connect (s : WS) : WS :=
  if s.isConnecting then s
  else
    { s with
        isConnecting := true
        ws := some ReadyState.CONNECTING
        attemptsStarted := s.attemptsStarted + 1 }

/-- Method `notifyConnectionStatus(status)`: invokes every registered status
callback with `status`; the ghost log `notified` records the deliveries. -/
def notifyConnectionStatus (s : WS) (st : ConnStatus) : WS :=
  { s with notified := s.notified ++ s.statusCallbacks.map (fun c => (c, st)) }

/-- Method `handleReconnect()`: only while `reconnectAttempts <
maxReconnectAttempts` does it increment the counter and schedule a reconnect
timer (`setTimeout(() => this.connect(), reconnectTimeout)`); at the maximum
it only logs and schedules nothing. -/
def handleReconnect (s : WS) : WS :=
  if s.reconnectAttempts < maxReconnectAttempts then
    { s with
        reconnectAttempts := s.reconnectAttempts + 1
        pendingTimers := s.pendingTimers + 1
        timersScheduled := s.timersScheduled + 1 }
  else s

/-- Method `send(data)`: when the current socket's readyState is `OPEN` the
frame is transmitted (`this.ws.send(data)`, recorded in `sent`); otherwise
the frame is pushed onto `messageQueue` and, unless a connection attempt is
already in flight, `connect()` is called. -/
def send (s : WS) (data : String) : WS :=
  if s.ws = some ReadyState.OPEN then
    { s with sent := s.sent ++ [data] }
  else
    let s1 := { s with messageQueue := s.messageQueue ++ [data] }
    if s1.isConnecting then s1 else connect s1

/-- Method `processMessageQueue()`: `while (queue nonempty && readyState ===
OPEN) { send(queue.shift()) }`. -/
def processMessageQueue (s : WS) : WS :=
  match h : s.messageQueue with
  | [] => s
  | m :: rest =>
    if hw : s.ws = some ReadyState.OPEN then
      processMessageQueue (send { s with messageQueue := rest } m)
    else s
termination_by s.messageQueue.length
decreasing_by
  simp [send, hw, h]

/-- Handler `ws.onopen`: the socket has reached readyState `OPEN`; the body
resets `reconnectAttempts` to 0, clears `isConnecting`, drains the queue via
`processMessageQueue()` and notifies `'connected'`. -/
def onOpenEv (s : WS) : WS :=
  notifyConnectionStatus
    (processMessageQueue
      { s with
          ws := some ReadyState.OPEN
          reconnectAttempts := 0
          isConnecting := false })
    ConnStatus.connected

/-- Handler `ws.onclose`: the socket has reached readyState `CLOSED`; the
body clears `isConnecting`, notifies `'disconnected'` and calls
`handleReconnect()`. -/
def onCloseEv (s : WS) : WS :=
  handleReconnect
    (notifyConnectionStatus
      { s with ws := some ReadyState.CLOSED, isConnecting := false }
      ConnStatus.disconnected)

/-- Handler `ws.onerror`: clears `isConnecting` and notifies
`'disconnected'`; it schedules nothing itself (a close event follows a fatal
error and does the scheduling). -/
def onErrorEv (s : WS) : WS :=
  notifyConnectionStatus { s with isConnecting := false } ConnStatus.disconnected

/-- Firing of one scheduled reconnect timer: runs only when a timer is
pending; the callback `() => this.connect()` executes (counted in
`timerConnects`). -/
def timerFire (s : WS) : WS :=
  if 0 < s.pendingTimers then
    connect { s with
                pendingTimers := s.pendingTimers - 1
                timerConnects := s.timerConnects + 1 }
  else s

/-- External events driving the service: the socket handshake succeeding
(`openEv`), the socket closing or failing (`closeEv`), a socket error
(`errorEv`), a scheduled reconnect timer firing (`timerEv`), an explicit
`connect()` call (`connectEv`), and a public `send` call (`sendEv`). -/
inductive Event where
  | openEv
  | closeEv
  | errorEv
  | timerEv
  | connectEv
  | sendEv (data : String)
  deriving DecidableEq, Repr

/-- One step of the event-driven execution.  `onopen` can fire only on a
socket that is currently in its handshake (`CONNECTING`). -/
def step (s : WS) (e : Event) : WS :=
  match e with
  | Event.openEv => if s.ws = some ReadyState.CONNECTING then onOpenEv s else s
  | Event.closeEv => onCloseEv s
  | Event.errorEv => onErrorEv s
  | Event.timerEv => timerFire s
  | Event.connectEv => connect s
  | Event.sendEv d => send s d

/-- Run a list of events from a state. -/
def run (s : WS) : List Event → WS
  | [] => s
  | e :: es => run (step s e) es

/-- Constructor `new WebSocketService()`: initializes the fields and calls
`connect()`. -/
def newWebSocketService : WS := connect initWS

/-- Method `getConnectionStatus()`: `'connected'` exactly when the current
socket's readyState is `OPEN`. -/
def getConnectionStatus (s : WS) : ConnStatus :=
  if s.ws = some ReadyState.OPEN then ConnStatus.connected
  else ConnStatus.disconnected

/-- Method `addConnectionStatusCallback(cb)`: adds the callback to the set and
hands back its registration token (the returned de-registration closure is
`removeConnectionStatusCallback` below applied to that token). -/
def addConnectionStatusCallback (s : WS) : WS × Nat :=
  ({ s with
       statusCallbacks := s.statusCallbacks ++ [s.nextCallbackId]
       nextCallbackId := s.nextCallbackId + 1 },
   s.nextCallbackId)

/-- De-registration closure returned by `addConnectionStatusCallback`:
deletes the callback with the given token from the set. -/
def removeConnectionStatusCallback (s : WS) (id : Nat) : WS :=
  { s with statusCallbacks := s.statusCallbacks.filter (fun c => c ≠ id) }

/-- Operating modes (`'PPT更新' | '教案编写' | '教材拷问'`). -/
inductive Mode where
  | pptUpdate
  | lessonPlan
  | textbookQA
  deriving DecidableEq, Repr

/-- File argument carried by `sendMessage`'s `data.file` (name, MIME type,
size, and the raw `ArrayBuffer` bytes). -/
structure FileInfo where
  name : String
  ftype : String
  size : Nat
  data : List Nat
  deriving DecidableEq, Repr

/-- Argument object of `sendMessage`: `{ text, file? }`. -/
structure SendData where
  text : String
  file : Option FileInfo
  deriving DecidableEq, Repr

/-- Outbound Message Envelope: `{ text, fileData, filename, fileType,
fileSize }`, with `null` modelled as `none`. -/
structure Envelope where
  text : String
  fileData : Option String
  filename : Option String
  fileType : Option String
  fileSize : Option Nat
  deriving DecidableEq, Repr

/-- JSON escaping over a character list (backslash and double quote). -/
def jsonEscapeList : List Char → List Char
  | [] => []
  | c :: cs =>
      if c = '\\' ∨ c = '\x22' then '\\' :: c :: jsonEscapeList cs
      else c :: jsonEscapeList cs

/-- JSON string escaping (backslash and double quote). -/
def jsonEscape (s : String) : String :=
  String.mk (jsonEscapeList s.data)

/-- JSON rendering of a string value. -/
def jsonStr (v : String) : String :=
  "\x22" ++ jsonEscape v ++ "\x22"

/-- JSON rendering of a nullable string value. -/
def jsonOptStr : Option String → String
  | none => "null"
  | some v => jsonStr v

/-- JSON rendering of a nullable number value. -/
def jsonOptNat : Option Nat → String
  | none => "null"
  | some n => toString n

/-- Serialization `JSON.stringify(message)` of the envelope object literal
built in `sendMessage` (all five keys always present, in source order). -/
def Envelope.serialize (e : Envelope) : String :=
  "\x7b\x22text\x22:" ++ jsonStr e.text ++
  ",\x22fileData\x22:" ++ jsonOptStr e.fileData ++
  ",\x22filename\x22:" ++ jsonOptStr e.filename ++
  ",\x22fileType\x22:" ++ jsonOptStr e.fileType ++
  ",\x22fileSize\x22:" ++ jsonOptNat e.fileSize ++ "\x7d"

/-- Envelope construction performed by `sendMessage`: with a file attached,
`fileData` is the base64 data-URL string produced by
`FileReader.readAsDataURL` (the platform encoder is the parameter `enc`,
always yielding a string) together with the file's metadata; without a file
every file field is `null`. -/
def mkEnvelope (enc : List Nat → String) (d : SendData) : Envelope :=
  match d.file with
  | some f =>
      { text := d.text
        fileData := some (enc f.data)
        filename := some f.name
        fileType := some f.ftype
        fileSize := some f.size }
  | none =>
      { text := d.text
        fileData := none
        filename := none
        fileType := none
        fileSize := none }

/-- Outcome of the promise returned by `sendMessage`. -/
inductive SendOutcome where
  | resolved
  | rejected
  deriving DecidableEq, Repr

/-- Method `sendMessage(mode, data)`: builds the envelope (asynchronously
base64-encoding the file when present), hands `JSON.stringify(message)` to
`send`, and resolves; it rejects only when `send` throws, and `send` is
total, so the outcome is always `resolved` — queueing while disconnected
counts as success.  The `mode` argument is accepted but unused. -/
def sendMessage (enc : List Nat → String) (s : WS) (_mode : Mode) (d : SendData) :
    WS × SendOutcome :=
  (send s (mkEnvelope enc d).serialize, SendOutcome.resolved)

/-- Decoded inbound payload, restricted to the fields the client inspects
(`type`, `status`, `message`, `content`, `filename`); an absent field
(JavaScript `undefined`) is `none`. -/
structure Payload where
  type : Option String
  status : Option String
  message : Option String
  content : Option String
  filename : Option String
  deriving DecidableEq, Repr

/-- Value handed to a message listener: the decoded structured value on
successful `JSON.parse`, or the raw frame text on decode failure. -/
inductive Inbound where
  | parsed (p : Payload)
  | raw (s : String)
  deriving DecidableEq, Repr

/-- Handler `ws.onmessage`: tries `JSON.parse(event.data)` (the platform
parser is the parameter `parse`); on success every registered message
handler receives the decoded value, on failure (the `catch` arm) every
registered message handler receives `event.data` unchanged.  The result is
the delivery list (handler token, payload delivered). -/
def onMessageEv (parse : String → Option Payload) (handlers : List Nat)
    (raw : String) : List (Nat × Inbound) :=
  match parse raw with
  | some v => handlers.map (fun h => (h, Inbound.parsed v))
  | none => handlers.map (fun h => (h, Inbound.raw raw))

/-- JavaScript string-or-undefined value, the type of the `text` field the
dispatcher stores in a UI message (`data.content` or `data.message` may be
`undefined`). -/
inductive JSVal where
  | str (s : String)
  | undef
  deriving DecidableEq, Repr

/-- Rendering of a possibly-undefined value inside a JavaScript template
literal: `undefined` prints as the text `undefined`. -/
def jsTemplate : Option String → String
  | none => "undefined"
  | some v => v

/-- JavaScript truthiness of a possibly-undefined string: `undefined` and
the empty string are falsy. -/
def truthy : Option String → Bool
  | none => false
  | some v => v ≠ ""

/-- Model of `JSON.stringify(data)` on a decoded payload: present fields
only, rendered in the canonical field order of `Payload` (the original
object's key order is the wire order, which the restricted model fixes to
this order). -/
def Payload.stringify (p : Payload) : String :=
  "\x7b" ++
    String.intercalate ","
      (([("type", p.type), ("status", p.status), ("message", p.message),
         ("content", p.content), ("filename", p.filename)].filterMap
        (fun kv => kv.2.map (fun v => jsonStr kv.1 ++ ":" ++ jsonStr v)))) ++
  "\x7d"

/-- UI dispatcher `handleMessage(data)` in `ChatInterface`: the if/else
chain over the decoded payload, returning the `text` stored in the appended
UI message.  Note the fourth guard is JavaScript truthiness of
`data.message`, not mere presence. -/
def handleMessage (p : Payload) : JSVal :=
  if p.type = some "welcome" then
    match p.content with
    | some c => JSVal.str c
    | none => JSVal.undef
  else if p.status = some "error" then
    JSVal.str ("错误: " ++ jsTemplate p.message)
  else if p.status = some "success" then
    if p.type = some "file" then
      JSVal.str ("文件上传成功: " ++ jsTemplate p.filename)
    else
      match p.message with
      | some m => JSVal.str m
      | none => JSVal.undef
  else if truthy p.message then
    JSVal.str (p.message.getD "")
  else
    JSVal.str p.stringify

/-- Observable state of the Mode-scoped Session Adapter (`useWebSocket`):
the `status` React state after the mount effect ran, and the token of the
connection-status subscription it registered. -/
structure Adapter where
  status : ConnStatus
  callbackId : Nat
  deriving DecidableEq, Repr

/-- Mount effect of `useWebSocket`: subscribes a status callback on the
service and then initializes `status` from `getConnectionStatus()`. -/
def useWebSocketMount (s : WS) : Adapter × WS :=
  let r := addConnectionStatusCallback s
  ({ status := getConnectionStatus r.1, callbackId := r.2 }, r.1)

/-- Cleanup of `useWebSocket`'s effect: runs the de-registration closure of
the subscription taken at mount. -/
def useWebSocketCleanup (a : Adapter) (s : WS) : WS :=
  removeConnectionStatusCallback s a.callbackId

/-- Invariant of executions containing no successful open: the number of
reconnect timers ever scheduled equals the failed-attempt counter, the
counter never exceeds the maximum, and every scheduled timer either already
fired or is still pending. -/
def ReconnectInv (s : WS) : Prop :=
  s.timersScheduled = s.reconnectAttempts ∧
  s.reconnectAttempts ≤ maxReconnectAttempts ∧
  s.timerConnects + s.pendingTimers = s.timersScheduled

/-- Event trace in which every connection attempt fails: six close events,
each scheduled reconnect timer firing in between. -/
def failTrace : List Event :=
  [Event.closeEv, Event.timerEv, Event.closeEv, Event.timerEv,
   Event.closeEv, Event.timerEv, Event.closeEv, Event.timerEv,
   Event.closeEv, Event.timerEv, Event.closeEv]

theorem reconnectInv_step (s : WS) (e : Event) (he : e ≠ Event.openEv)
    (h : ReconnectInv s) : ReconnectInv (step s e) := by
  obtain ⟨h1, h2, h3⟩ := h
  unfold ReconnectInv
  cases e with
  | openEv => exact absurd rfl he
  | closeEv =>
      simp only [step, onCloseEv, notifyConnectionStatus, handleReconnect]
      split <;> (try dsimp only) <;> omega
  | errorEv =>
      simp only [step, onErrorEv, notifyConnectionStatus]
      omega
  | timerEv =>
      simp only [step, timerFire, connect]
      split <;> (try split) <;> (try dsimp only) <;> omega
  | connectEv =>
      simp only [step, connect]
      split <;> (try dsimp only) <;> omega
  | sendEv d =>
      simp only [step, send, connect]
      split <;> (try split) <;> (try split) <;> (try dsimp only) <;> omega

theorem reconnectInv_run (s : WS) (es : List Event) (hn : Event.openEv ∉ es)
    (h : ReconnectInv s) : ReconnectInv (run s es) := by
  induction es generalizing s with
  | nil => exact h
  | cons e es ih =>
      rw [List.mem_cons] at hn
      push_neg at hn
      exact ih (step s e) hn.2 (reconnectInv_step s e (Ne.symm hn.1) h)

theorem processMessageQueue_drain :
    ∀ (n : Nat) (s : WS), s.messageQueue.length ≤ n →
      s.ws = some ReadyState.OPEN →
      processMessageQueue s =
        { s with messageQueue := [], sent := s.sent ++ s.messageQueue } := by
  intro n
  induction n with
  | zero =>
      intro s hlen hopen
      have hq : s.messageQueue = [] :=
        List.eq_nil_of_length_eq_zero (Nat.le_zero.mp hlen)
      rw [processMessageQueue]
      split
      · apply WS.ext <;> simp [hq]
      · rename_i m rest heq
        rw [hq] at heq
        exact absurd heq (List.noConfusion)
  | succ n ih =>
      intro s hlen hopen
      rw [processMessageQueue]
      split
      · rename_i heq
        apply WS.ext <;> simp [heq]
      · rename_i m rest heq
        split
        · rename_i hw
          have hsend : send { s with messageQueue := rest } m =
              { s with messageQueue := rest, sent := s.sent ++ [m] } := by
            simp [send, hopen]
          have hlen2 : rest.length ≤ n := by
            rw [heq] at hlen
            simp at hlen
            omega
          rw [hsend]
          rw [ih { s with messageQueue := rest, sent := s.sent ++ [m] } hlen2 hopen]
          apply WS.ext <;> simp [heq]
        · rename_i hw
          exact absurd hopen hw

/-- C1: once the consecutive failed-attempt counter has reached the fixed
maximum of 5, no further automatic reconnect attempts are scheduled: along
every execution from the constructor in which no successful open occurs, at
most 5 reconnect timers are ever scheduled and at most 5 timer-driven
connection attempts ever run — in particular, after 5 consecutive
connection failures no 6th timer-driven attempt occurs. -/
theorem C1_reconnect_exhaustion (es : List Event) (h : Event.openEv ∉ es) :
    (run newWebSocketService es).timersScheduled ≤ maxReconnectAttempts ∧
    (run newWebSocketService es).timerConnects ≤ maxReconnectAttempts := by
  have hinit : ReconnectInv newWebSocketService := by
    refine ⟨rfl, ?_, rfl⟩
    decide
  obtain ⟨h1, h2, h3⟩ := reconnectInv_run newWebSocketService es h hinit
  omega

/-- Witness for C1: six consecutive failed attempts (the initial one plus
the five timer-driven retries), each scheduled timer firing; the 6th close
schedules no further timer. -/
theorem C1_reconnect_exhaustion_witness :
    Event.openEv ∉ failTrace ∧
    ((run newWebSocketService failTrace).timersScheduled ≤ maxReconnectAttempts ∧
     (run newWebSocketService failTrace).timerConnects ≤ maxReconnectAttempts) :=
  ⟨by decide, C1_reconnect_exhaustion failTrace (by decide)⟩

/-- C2: on the transition of the connection into the open state the outbound
queue is drained synchronously in exactly FIFO order — the frames
transmitted are the old transmission log followed by the queue contents in
order (so each queued message is transmitted exactly once and never
requeued), the queue is empty after the drain, the connection remains open —
and a send issued while the connection is open appends nothing to the
queue. -/
theorem C2_fifo_drain_on_open (s : WS) :
    (onOpenEv s).sent = s.sent ++ s.messageQueue ∧
    (onOpenEv s).messageQueue = [] ∧
    (onOpenEv s).ws = some ReadyState.OPEN ∧
    (s.ws = some ReadyState.OPEN →
       ∀ d, (send s d).messageQueue = s.messageQueue) := by
  unfold onOpenEv
  rw [processMessageQueue_drain
      (s.messageQueue.length)
      { s with ws := some ReadyState.OPEN, reconnectAttempts := 0, isConnecting := false }
      (le_refl _) rfl]
  refine ⟨by simp [notifyConnectionStatus], by simp [notifyConnectionStatus],
          by simp [notifyConnectionStatus], ?_⟩
  intro hopen d
  simp [send, hopen]

/-- Witness for C2: draining a two-message queue transmits both messages in
order and leaves the queue empty, and a send on an open connection does not
touch the queue. -/
theorem C2_fifo_drain_on_open_witness :
    (onOpenEv { initWS with ws := some ReadyState.CONNECTING,
                            messageQueue := ["a", "b"] }).sent = [] ++ ["a", "b"] ∧
    (onOpenEv { initWS with ws := some ReadyState.CONNECTING,
                            messageQueue := ["a", "b"] }).messageQueue = [] ∧
    (send { initWS with ws := some ReadyState.OPEN } "c").messageQueue = [] := by
  have h1 := C2_fifo_drain_on_open
    { initWS with ws := some ReadyState.CONNECTING, messageQueue := ["a", "b"] }
  have h2 := C2_fifo_drain_on_open { initWS with ws := some ReadyState.OPEN }
  exact ⟨h1.1, h1.2.1, h2.2.2.2 rfl "c"⟩

/-- C3: `send(envelope)` transmits immediately when the connection is open;
otherwise it appends the frame to the outbound queue — unconditionally, with
no capacity check — and initiates a connection attempt exactly when the
re-entrancy flag is unset.  The function is total (never throws) and in
every case returns the updated state normally. -/
theorem C3_send_contract (s : WS) (d : String) :
    (s.ws = some ReadyState.OPEN →
       send s d = { s with sent := s.sent ++ [d] }) ∧
    (s.ws ≠ some ReadyState.OPEN →
       (send s d).messageQueue = s.messageQueue ++ [d] ∧
       (send s d).sent = s.sent ∧
       (s.isConnecting = false →
          (send s d).attemptsStarted = s.attemptsStarted + 1 ∧
          (send s d).isConnecting = true) ∧
       (s.isConnecting = true →
          (send s d).attemptsStarted = s.attemptsStarted)) := by
  constructor
  · intro h
    simp [send, h]
  · intro h
    cases hc : s.isConnecting <;> simp [send, h, hc, connect]

/-- Witness for C3: sending from the freshly initialized, not-yet-connecting
state queues the frame, transmits nothing, and initiates a connection
attempt. -/
theorem C3_send_contract_witness :
    (send initWS "hello").messageQueue = initWS.messageQueue ++ ["hello"] ∧
    (send initWS "hello").sent = initWS.sent ∧
    (send initWS "hello").attemptsStarted = initWS.attemptsStarted + 1 ∧
    (send initWS "hello").isConnecting = true := by
  have h := (C3_send_contract initWS "hello").2 (by decide)
  exact ⟨h.1, h.2.1, (h.2.2.1 rfl).1, (h.2.2.1 rfl).2⟩

/-- C4: the failed-attempt counter is reset to zero exactly on the event
that transitions the connection into the open state, and no other event
ever decreases it. -/
theorem C4_counter_reset_only_on_open (s : WS) (e : Event) :
    (e = Event.openEv → s.ws = some ReadyState.CONNECTING →
       (step s e).reconnectAttempts = 0) ∧
    (¬(e = Event.openEv ∧ s.ws = some ReadyState.CONNECTING) →
       s.reconnectAttempts ≤ (step s e).reconnectAttempts) := by
  constructor
  · rintro rfl hw
    have hdrain := processMessageQueue_drain (s.messageQueue.length)
      { s with ws := some ReadyState.OPEN, reconnectAttempts := 0, isConnecting := false }
      (le_refl _) rfl
    simp [step, hw, onOpenEv, hdrain, notifyConnectionStatus]
  · intro hne
    cases e with
    | openEv =>
        have hw : s.ws ≠ some ReadyState.CONNECTING := fun hc => hne ⟨rfl, hc⟩
        simp [step, hw]
    | closeEv =>
        simp only [step, onCloseEv, notifyConnectionStatus, handleReconnect]
        split <;> (try dsimp only) <;> omega
    | errorEv => simp [step, onErrorEv, notifyConnectionStatus]
    | timerEv =>
        simp only [step, timerFire, connect]
        split <;> (try split) <;> (try dsimp only) <;> omega
    | connectEv =>
        simp only [step, connect]
        split <;> (try dsimp only) <;> omega
    | sendEv d =>
        simp only [step, send, connect]
        split <;> (try split) <;> (try split) <;> (try dsimp only) <;> omega

/-- Witness for C4: an open transition from a state with 3 failed attempts
resets the counter to zero, and a close event never decreases it. -/
theorem C4_counter_reset_only_on_open_witness :
    (step { initWS with ws := some ReadyState.CONNECTING, reconnectAttempts := 3 }
        Event.openEv).reconnectAttempts = 0 ∧
    ({ initWS with reconnectAttempts := 3 } : WS).reconnectAttempts ≤
      (step { initWS with reconnectAttempts := 3 } Event.closeEv).reconnectAttempts := by
  constructor
  · exact (C4_counter_reset_only_on_open
      { initWS with ws := some ReadyState.CONNECTING, reconnectAttempts := 3 }
      Event.openEv).1 rfl rfl
  · exact (C4_counter_reset_only_on_open
      { initWS with reconnectAttempts := 3 } Event.closeEv).2 (by decide)

/-- C10: in a state where automatic reconnection is exhausted (counter at
the maximum) and the connection is not open, a `send` call with no attempt
in flight still initiates a fresh connection attempt; the exhausted counter
is neither consulted nor reset by `send`, and no reconnect timer is touched. -/
theorem C10_send_after_exhaustion (s : WS) (d : String)
    (hmax : s.reconnectAttempts = maxReconnectAttempts)
    (hopen : s.ws ≠ some ReadyState.OPEN)
    (hc : s.isConnecting = false) :
    (send s d).attemptsStarted = s.attemptsStarted + 1 ∧
    (send s d).isConnecting = true ∧
    (send s d).ws = some ReadyState.CONNECTING ∧
    (send s d).reconnectAttempts = maxReconnectAttempts ∧
    (send s d).pendingTimers = s.pendingTimers := by
  simp [send, hopen, hc, connect, hmax]

/-- Witness for C10: a send from the exhausted, closed, idle state starts a
new connection attempt. -/
theorem C10_send_after_exhaustion_witness :
    (send { initWS with ws := some ReadyState.CLOSED,
                        reconnectAttempts := maxReconnectAttempts } "x").attemptsStarted
        = ({ initWS with ws := some ReadyState.CLOSED,
                         reconnectAttempts := maxReconnectAttempts } : WS).attemptsStarted + 1 ∧
    (send { initWS with ws := some ReadyState.CLOSED,
                        reconnectAttempts := maxReconnectAttempts } "x").isConnecting = true ∧
    (send { initWS with ws := some ReadyState.CLOSED,
                        reconnectAttempts := maxReconnectAttempts } "x").ws
        = some ReadyState.CONNECTING ∧
    (send { initWS with ws := some ReadyState.CLOSED,
                        reconnectAttempts := maxReconnectAttempts } "x").reconnectAttempts
        = maxReconnectAttempts ∧
    (send { initWS with ws := some ReadyState.CLOSED,
                        reconnectAttempts := maxReconnectAttempts } "x").pendingTimers
        = ({ initWS with ws := some ReadyState.CLOSED,
                         reconnectAttempts := maxReconnectAttempts } : WS).pendingTimers :=
  C10_send_after_exhaustion
    { initWS with ws := some ReadyState.CLOSED, reconnectAttempts := maxReconnectAttempts }
    "x" rfl (by decide) rfl

/-- Counterexample to C5 as stated: the payload whose only field is
`message` with the empty-string value.  The claim's case (4) — "else a
present `message` field is rendered verbatim" — would render the empty
string, but the dispatcher tests JavaScript truthiness (`else if
(data.message)`), the empty string is falsy, and the handler falls through
to the stringify fallback instead. -/
theorem C5_counterexample :
    handleMessage
        { type := none, status := none, message := some "",
          content := none, filename := none }
      = JSVal.str "\x7b\x22message\x22:\x22\x22\x7d" ∧
    handleMessage
        { type := none, status := none, message := some "",
          content := none, filename := none }
      ≠ JSVal.str "" := by
  constructor
  · decide
  · decide

/-- C5 amended: the dispatcher resolves exactly one of five cases in
priority order — (1) `type == "welcome"` renders the `content` field; (2)
else `status == "error"` renders `错误: ` followed by the `message` field;
(3) else `status == "success"` renders a file-upload confirmation
referencing `filename` when `type == "file"` and otherwise the `message`
field verbatim; (4) else a *truthy* (present and non-empty) `message` field
is rendered verbatim; (5) otherwise — including a present but empty
`message` — the entire payload is stringified as a fallback. -/
theorem C5_handleMessage_cases (p : Payload) :
    (p.type = some "welcome" →
       handleMessage p =
         (match p.content with
          | some c => JSVal.str c
          | none => JSVal.undef)) ∧
    (p.type ≠ some "welcome" → p.status = some "error" →
       handleMessage p = JSVal.str ("错误: " ++ jsTemplate p.message)) ∧
    (p.type ≠ some "welcome" → p.status ≠ some "error" →
       p.status = some "success" →
       handleMessage p =
         (if p.type = some "file" then
            JSVal.str ("文件上传成功: " ++ jsTemplate p.filename)
          else
            match p.message with
            | some m => JSVal.str m
            | none => JSVal.undef)) ∧
    (p.type ≠ some "welcome" → p.status ≠ some "error" →
       p.status ≠ some "success" → truthy p.message = true →
       handleMessage p = JSVal.str (p.message.getD "")) ∧
    (p.type ≠ some "welcome" → p.status ≠ some "error" →
       p.status ≠ some "success" → truthy p.message = false →
       handleMessage p = JSVal.str p.stringify) := by
  refine ⟨?_, ?_, ?_, ?_, ?_⟩ <;> intros <;> simp_all [handleMessage]

/-- Witness for the amended C5: the spec's error scenario — inbound
`status:"error", message:"bad input"` renders `错误: bad input`. -/
theorem C5_handleMessage_cases_witness :
    handleMessage
        { type := none, status := some "error", message := some "bad input",
          content := none, filename := none }
      = JSVal.str ("错误: " ++ jsTemplate (some "bad input")) :=
  (C5_handleMessage_cases
      { type := none, status := some "error", message := some "bad input",
        content := none, filename := none }).2.1 (by decide) rfl

/-- C6: the receive handler first attempts to decode the raw frame; on
success the decoded value is delivered to every registered message listener,
on failure the raw payload is delivered unchanged to every registered
listener; in both cases the delivery list covers exactly the registered
listeners (no frame is silently dropped), and the handler is a total
function of the parse result (it does not throw on decode failure). -/
theorem C6_onmessage_decode_fanout (parse : String → Option Payload)
    (handlers : List Nat) (raw : String) :
    (∀ v, parse raw = some v →
       onMessageEv parse handlers raw =
         handlers.map (fun h => (h, Inbound.parsed v))) ∧
    (parse raw = none →
       onMessageEv parse handlers raw =
         handlers.map (fun h => (h, Inbound.raw raw))) ∧
    (onMessageEv parse handlers raw).length = handlers.length := by
  refine ⟨?_, ?_, ?_⟩
  · intro v hv
    simp [onMessageEv, hv]
  · intro hn
    simp [onMessageEv, hn]
  · unfold onMessageEv
    cases parse raw <;> simp

/-- Witness for C6: the spec's scenario — the frame `not-json` fails to
decode and both registered listeners receive the original raw string
unchanged. -/
theorem C6_onmessage_decode_fanout_witness :
    onMessageEv (fun _ => none) [0, 1] "not-json"
      = [(0, Inbound.raw "not-json"), (1, Inbound.raw "not-json")] :=
  (C6_onmessage_decode_fanout (fun _ => none) [0, 1] "not-json").2.1 rfl

/-- C7: `sendMessage` builds the exact null-filled envelope when no file is
attached, `fileData` is non-null (the encoder's output for the file bytes)
exactly when a file is attached — `fileData = null` iff no file — and the
returned promise resolves once the envelope has been handed to `send`,
regardless of connection state: while disconnected the serialized envelope
is queued and the call still resolves. -/
theorem C7_sendMessage_envelope (enc : List Nat → String) (s : WS)
    (m : Mode) (d : SendData) :
    (d.file = none →
       mkEnvelope enc d =
         { text := d.text, fileData := none, filename := none,
           fileType := none, fileSize := none }) ∧
    (∀ f, d.file = some f →
       mkEnvelope enc d =
         { text := d.text, fileData := some (enc f.data),
           filename := some f.name, fileType := some f.ftype,
           fileSize := some f.size }) ∧
    ((mkEnvelope enc d).fileData = none ↔ d.file = none) ∧
    (sendMessage enc s m d).2 = SendOutcome.resolved ∧
    (s.ws ≠ some ReadyState.OPEN →
       ((sendMessage enc s m d).1).messageQueue =
         s.messageQueue ++ [(mkEnvelope enc d).serialize]) := by
  refine ⟨?_, ?_, ?_, rfl, ?_⟩
  · intro h
    simp [mkEnvelope, h]
  · intro f h
    simp [mkEnvelope, h]
  · cases h : d.file <;> simp [mkEnvelope, h]
  · intro h
    cases hc : s.isConnecting <;> simp [sendMessage, send, h, hc, connect]

/-- Witness for C7: the spec's scenario — sending `text:"hello"` with no
file while disconnected produces the null-filled envelope, queues exactly
its serialization, and resolves. -/
theorem C7_sendMessage_envelope_witness :
    mkEnvelope (fun _ => "") { text := "hello", file := none }
      = { text := "hello", fileData := none, filename := none,
          fileType := none, fileSize := none } ∧
    (mkEnvelope (fun _ => "") { text := "hello", file := none }).fileData = none ∧
    (sendMessage (fun _ => "") initWS Mode.pptUpdate
        { text := "hello", file := none }).2 = SendOutcome.resolved ∧
    (sendMessage (fun _ => "") initWS Mode.pptUpdate
        { text := "hello", file := none }).1.messageQueue =
      initWS.messageQueue ++
        [(mkEnvelope (fun _ => "") { text := "hello", file := none }).serialize] := by
  have h := C7_sendMessage_envelope (fun _ => "") initWS Mode.pptUpdate
    { text := "hello", file := none }
  exact ⟨h.1 rfl, h.2.2.1.mpr rfl, h.2.2.2.1, h.2.2.2.2 (by decide)⟩

/-- C8: two `sendMessage` calls differing only in the `mode` argument
produce identical results — in particular identical wire envelopes: the
mode value is accepted but not embedded in the outbound envelope. -/
theorem C8_mode_not_embedded (enc : List Nat → String) (s : WS)
    (m1 m2 : Mode) (d : SendData) :
    sendMessage enc s m1 d = sendMessage enc s m2 d := rfl

/-- C9: the Session Adapter's observable status after its mount effect is
initialized from `getConnectionStatus()`, which returns `connected` if and
only if the underlying channel is currently open — and at creation of the
service the channel is still handshaking, so the adapter's first observable
status (`disconnected`) equals the client's actual status; the
connection-status subscription taken at mount is removed again by the
cleanup. -/
theorem C9_adapter_status (s : WS)
    (hwf : ∀ c ∈ s.statusCallbacks, c < s.nextCallbackId) :
    (useWebSocketMount s).1.status = getConnectionStatus s ∧
    (getConnectionStatus s = ConnStatus.connected ↔ s.ws = some ReadyState.OPEN) ∧
    getConnectionStatus newWebSocketService = ConnStatus.disconnected ∧
    (useWebSocketCleanup (useWebSocketMount s).1 (useWebSocketMount s).2).statusCallbacks
      = s.statusCallbacks := by
  refine ⟨?_, ?_, by decide, ?_⟩
  · simp [useWebSocketMount, addConnectionStatusCallback, getConnectionStatus]
  · unfold getConnectionStatus
    split <;> simp_all
  · simp only [useWebSocketCleanup, useWebSocketMount, removeConnectionStatusCallback,
      addConnectionStatusCallback, List.filter_append]
    rw [List.filter_eq_self.mpr, List.filter_cons]
    · simp
    · intro a ha
      have := hwf a ha
      simp
      omega

/-- Witness for C9: mounting the adapter on a freshly constructed service
reads status `disconnected` from `getConnectionStatus()`, and the cleanup
removes the subscription it registered. -/
theorem C9_adapter_status_witness :
    (useWebSocketMount newWebSocketService).1.status
      = getConnectionStatus newWebSocketService ∧
    getConnectionStatus newWebSocketService = ConnStatus.disconnected ∧
    (useWebSocketCleanup (useWebSocketMount newWebSocketService).1
        (useWebSocketMount newWebSocketService).2).statusCallbacks
      = newWebSocketService.statusCallbacks := by
  have h := C9_adapter_status newWebSocketService (by decide)
  exact ⟨h.1, h.2.2.1, h.2.2.2⟩
